import Mathlib

/-!
Verification of the authentication and session-management core of the
medicarehub pharmacy platform, shallowly embedded from the TypeScript
sources (`server/services/authService.ts`, `server/middleware/auth.ts`,
`server/routes/auth.ts`, `server/storage.ts`).

Mutable process state (OTP session map, token blacklists, failure counters)
is modelled by explicit state passing over association lists keyed by
strings; wall-clock time is an explicit `Nat` parameter (milliseconds);
JWT signing is modelled symbolically: a signed token records the payload
together with the secret, issuer and audience it was signed with, and
verification succeeds exactly when the verifier's secret (and, where the
code requests them, issuer/audience) match and the token is unexpired.
-/

namespace MedicareHub

/-- Association-list lookup, modelling `Map.get(key)` on a string-keyed map. -/
def lookupA {α : Type} (m : List (String × α)) (k : String) : Option α :=
  (m.find? (fun p => p.1 == k)).map (·.2)

/-- Association-list in-place update, modelling mutation of the record stored
under an existing key (`session.attempts++` etc.). -/
def setA {α : Type} (m : List (String × α)) (k : String) (v : α) : List (String × α) :=
  m.map (fun p => if p.1 == k then (k, v) else p)

/-- Association-list removal, modelling `Map.delete(key)`. -/
def deleteA {α : Type} (m : List (String × α)) (k : String) : List (String × α) :=
  m.filter (fun p => p.1 != k)

theorem lookupA_set_self {α : Type} (m : List (String × α)) (k : String) (x v : α)
    (h : lookupA m k = some x) : lookupA (setA m k v) k = some v := by
  induction m with
  | nil => simp [lookupA] at h
  | cons p rest ih =>
    by_cases hk : p.1 = k
    · simp [lookupA, setA, List.find?, hk]
    · simp only [lookupA, setA, List.map_cons, List.find?] at *
      rw [if_neg (by simp [hk])]
      simp only [show (p.1 == k) = false by simp [hk]] at h ⊢
      exact ih h

theorem lookupA_delete_self {α : Type} (m : List (String × α)) (k : String) :
    lookupA (deleteA m k) k = none := by
  induction m with
  | nil => rfl
  | cons p rest ih =>
    by_cases hk : p.1 = k
    · simp [deleteA, List.filter, hk] at ih ⊢
      exact ih
    · simp only [deleteA, List.filter] at *
      simp only [show (p.1 != k) = true by simp [hk]]
      simp only [lookupA, List.find?, show (p.1 == k) = false by simp [hk]] at ih ⊢
      exact ih

/-! ## Data model: users and storage (`server/storage.ts`) -/

/-- A persisted user record (the fields of `users` consumed by the auth core). -/
structure User where
  id : String
  email : Option String := none
  phone : Option String := none
  passwordHash : Option String := none
  role : String := "client"
  isActive : Bool := true
deriving Repr, DecidableEq

/-- The persistence layer is modelled as the list of stored user rows. -/
abbrev UserStore := List User

/-- `storage.getUserByEmail(email)`: first row whose email column equals the
argument. -/
def getUserByEmail (db : UserStore) (email : String) : Option User :=
  db.find? (fun u => u.email == some email)

/-- `storage.getUserByEmailOrPhone(emailOrPhone)`: resolves the identifier as
an email when it contains `'@'`, else as a phone number, and queries the
matching column. -/
def getUserByEmailOrPhone (db : UserStore) (emailOrPhone : String) : Option User :=
  if emailOrPhone.data.contains '@' then
    db.find? (fun u => u.email == some emailOrPhone)
  else
    db.find? (fun u => u.phone == some emailOrPhone)

/-! ## Role hierarchy (`middleware/auth.ts` authorize, `authService.hasPermission`) -/

/-- The `roleHierarchy` map of `authorize` / `hasPermission`: the four known
roles get levels 1–4, and the JS `roleHierarchy[role] || 0` lookup default
sends every other string to 0. -/
def roleLevel (role : String) : Nat :=
  if role = "client" then 1
  else if role = "pharmacy_seller" then 2
  else if role = "pharmacy_owner" then 3
  else if role = "super_admin" then 4
  else 0

/-- The four role strings that appear in the `roleHierarchy` map. -/
def knownRoles : List String :=
  ["client", "pharmacy_seller", "pharmacy_owner", "super_admin"]

/-- `AuthService.hasPermission(userRole, requiredRole)`:
`userLevel >= requiredLevel` over the same hierarchy map. -/
def hasPermission (userRole requiredRole : String) : Bool :=
  decide (roleLevel requiredRole ≤ roleLevel userRole)

/-- Outcome of the `authorize` middleware. -/
inductive AuthzOutcome
  | authRequired
  | insufficient
  | granted
deriving Repr, DecidableEq

/-- The `authorize(requiredRoles)` middleware: 401 without `req.user`; else
grants iff `roles.some(role => userLevel >= (roleHierarchy[role] || 0))`. -/
def authorize (reqUserRole : Option String) (requiredRoles : List String) : AuthzOutcome :=
  match reqUserRole with
  | none => .authRequired
  | some role =>
    let userLevel := roleLevel role
    if requiredRoles.any (fun r => decide (roleLevel r ≤ userLevel)) then
      .granted
    else
      .insufficient

/-- Spec-side formula for C2: the minimum level among the required roles,
written from the spec's words (fold of `min`; 5 exceeds every real level,
so on a non-empty list the fold is the true minimum). -/
def specMinRequiredLevel (requiredRoles : List String) : Nat :=
  (requiredRoles.map roleLevel).foldr min 5

theorem roleLevel_le_four (r : String) : roleLevel r ≤ 4 := by
  unfold roleLevel
  repeat' split
  all_goals omega

theorem roleLevel_of_unknown (r : String) (h : r ∉ knownRoles) : roleLevel r = 0 := by
  simp only [knownRoles, List.mem_cons, List.not_mem_nil, or_false, not_or] at h
  obtain ⟨h1, h2, h3, h4⟩ := h
  simp [roleLevel, h1, h2, h3, h4]

theorem any_level_iff_min_le (lvl : Nat) (rs : List String) (hne : rs ≠ []) :
    (rs.any (fun r => decide (roleLevel r ≤ lvl)) = true) ↔
      specMinRequiredLevel rs ≤ lvl := by
  induction rs with
  | nil => exact absurd rfl hne
  | cons r rest ih =>
    cases rest with
    | nil =>
      have h4 := roleLevel_le_four r
      simp only [List.any_cons, List.any_nil, Bool.or_false, decide_eq_true_eq,
        specMinRequiredLevel, List.map_cons, List.map_nil, List.foldr_cons, List.foldr_nil]
      rw [min_le_iff]
      omega
    | cons r2 rest2 =>
      have ihr := ih (by simp)
      constructor
      · intro h
        rw [List.any_cons, Bool.or_eq_true, decide_eq_true_eq] at h
        show min (roleLevel r) (specMinRequiredLevel (r2 :: rest2)) ≤ lvl
        rw [min_le_iff]
        rcases h with h | h
        · exact Or.inl h
        · exact Or.inr (ihr.mp h)
      · intro h
        have h' : min (roleLevel r) (specMinRequiredLevel (r2 :: rest2)) ≤ lvl := h
        rw [List.any_cons, Bool.or_eq_true, decide_eq_true_eq]
        rcases min_le_iff.mp h' with h2 | h2
        · exact Or.inl h2
        · exact Or.inr (ihr.mpr h2)

/-! ## Token service (`authService.ts`): symbolic JWTs -/

/-- The `type` claim embedded in every token payload. -/
inductive TokenType
  | access
  | refresh
deriving Repr, DecidableEq

/-- The claim set `{userId, email, role, type}` signed into each token. -/
structure JWTPayload where
  userId : String
  email : String
  role : String
  type : TokenType
deriving Repr, DecidableEq

/-- A signed token: the payload plus the signing parameters. Verification of
the signature is modelled as equality of the verifier's secret with the
recorded signing secret. -/
structure SignedToken where
  payload : JWTPayload
  secret : String
  issuer : String
  audience : String
  exp : Nat
deriving Repr, DecidableEq

/-- The environment-derived secrets: `JWT_ACCESS_SECRET` / `JWT_REFRESH_SECRET`
read by `authService.ts` and `JWT_SECRET` read by `middleware/auth.ts`, each
with its hard-coded fallback as the default. -/
structure EnvConfig where
  accessTokenSecret : String := "access-secret-key"
  refreshTokenSecret : String := "refresh-secret-key"
  jwtSecret : String := "uzpharm-digital-secret-key-2024"
deriving Repr, DecidableEq

/-- `accessTokenExpiry = '15m'` in milliseconds. -/
def accessTokenExpiryMs : Nat := 15 * 60 * 1000

/-- `refreshTokenExpiry = '7d'` in milliseconds. -/
def refreshTokenExpiryMs : Nat := 7 * 24 * 60 * 60 * 1000

/-- `AuthService.generateAccessToken(user)`. -/
def generateAccessToken (cfg : EnvConfig) (u : User) (now : Nat) : SignedToken :=
  { payload := { userId := u.id, email := u.email.getD "", role := u.role, type := .access },
    secret := cfg.accessTokenSecret,
    issuer := "uzpharm-digital",
    audience := "uzpharm-users",
    exp := now + accessTokenExpiryMs }

/-- `AuthService.generateRefreshToken(user)`. -/
def generateRefreshToken (cfg : EnvConfig) (u : User) (now : Nat) : SignedToken :=
  { payload := { userId := u.id, email := u.email.getD "", role := u.role, type := .refresh },
    secret := cfg.refreshTokenSecret,
    issuer := "uzpharm-digital",
    audience := "uzpharm-users",
    exp := now + refreshTokenExpiryMs }

/-- `jwt.verify(token, secret, {issuer, audience})`: claims returned iff the
secret matches, the issuer/audience claims match, and the token is unexpired. -/
def jwtVerify (t : SignedToken) (secret issuer audience : String) (now : Nat) :
    Option JWTPayload :=
  if t.secret = secret ∧ t.issuer = issuer ∧ t.audience = audience ∧ now < t.exp then
    some t.payload
  else
    none

/-- The token blacklist kept by `AuthService` (`blacklistedTokens` in
`authService.ts`); membership models JS `Set.has` on the encoded token string. -/
abbrev TokenSet := List SignedToken

/-- `AuthService.verifyAccessToken(token)`: null when blacklisted, on any
signature/claims failure, or when the `type` claim is not `access`. -/
def verifyAccessToken (cfg : EnvConfig) (blacklisted : TokenSet) (t : SignedToken)
    (now : Nat) : Option JWTPayload :=
  if t ∈ blacklisted then
    none
  else
    match jwtVerify t cfg.accessTokenSecret "uzpharm-digital" "uzpharm-users" now with
    | some p => if p.type = .access then some p else none
    | none => none

/-- `AuthService.verifyRefreshToken(token)`. -/
def verifyRefreshToken (cfg : EnvConfig) (blacklisted : TokenSet) (t : SignedToken)
    (now : Nat) : Option JWTPayload :=
  if t ∈ blacklisted then
    none
  else
    match jwtVerify t cfg.refreshTokenSecret "uzpharm-digital" "uzpharm-users" now with
    | some p => if p.type = .refresh then some p else none
    | none => none

/-- `AuthService.logout(accessToken, refreshToken)`: adds both tokens to the
service's own blacklist (and nothing else). -/
def logout (blacklisted : TokenSet) (accessToken refreshToken : SignedToken) : TokenSet :=
  (blacklisted.insert accessToken).insert refreshToken

/-! ## Request-authentication middleware (`middleware/auth.ts`) -/

/-- The `req.user` object attached by `authenticate`. -/
structure ReqUser where
  userId : String
  email : String
  role : String
deriving Repr, DecidableEq

/-- `extractUserFromToken(token)` in `middleware/auth.ts`: verifies with the
middleware's own `JWT_SECRET` and no issuer/audience/type check. -/
def extractUserFromToken (cfg : EnvConfig) (t : SignedToken) (now : Nat) : Option ReqUser :=
  if t.secret = cfg.jwtSecret ∧ now < t.exp then
    some { userId := t.payload.userId, email := t.payload.email, role := t.payload.role }
  else
    none

/-- Outcome of the `authenticate` middleware. -/
inductive AuthOutcome
  | noToken
  | revoked
  | invalidToken
  | inactiveOrMissing
  | ok (u : ReqUser)
deriving Repr, DecidableEq

/-- The `authenticate` middleware: missing token → 401; token in the
middleware's OWN `blacklistedTokens` set → 401 revoked; `extractUserFromToken`
failure → 401 invalid; user row missing or inactive → 401; else attaches
`req.user`. Note the blacklist consulted here is the module-level set in
`middleware/auth.ts`, a distinct object from `AuthService`'s blacklist. -/
def authenticate (cfg : EnvConfig) (mwBlacklisted : TokenSet) (db : UserStore)
    (token : Option SignedToken) (now : Nat) : AuthOutcome :=
  match token with
  | none => .noToken
  | some t =>
    if t ∈ mwBlacklisted then
      .revoked
    else
      match extractUserFromToken cfg t now with
      | none => .invalidToken
      | some userInfo =>
        match getUserByEmail db userInfo.email with
        | none => .inactiveOrMissing
        | some u => if u.isActive then .ok userInfo else .inactiveOrMissing

/-! ## One-time-code issuer (`authService.ts` OTP sessions) -/

/-- An `OTPSession` record as stored in `otpSessions`. -/
structure OTPSession where
  email : Option String := none
  phone : Option String := none
  code : String
  attempts : Nat := 0
  createdAt : Nat := 0
  expiresAt : Nat
  verified : Bool := false
deriving Repr, DecidableEq

/-- The `otpSessions` map keyed by sessionId. -/
abbrev OTPStore := List (String × OTPSession)

/-- `otpExpiry = 5 * 60 * 1000`. -/
def otpExpiryMs : Nat := 5 * 60 * 1000

/-- `maxOtpAttempts = 3`. -/
def maxOtpAttempts : Nat := 3

/-- Result shape of `AuthService.verifyOTP`. -/
structure OtpVerifyResult where
  success : Bool
  message : String
  email : Option String := none
  phone : Option String := none
deriving Repr, DecidableEq

/-- `AuthService.verifyOTP(sessionId, code)`: returns the response and the
updated session map. Branch order follows the source: missing session,
expiry (delete), already verified, attempts cap (delete), then increment
attempts and compare the code. -/
def verifyOTP (sessions : OTPStore) (sessionId code : String) (now : Nat) :
    OtpVerifyResult × OTPStore :=
  match lookupA sessions sessionId with
  | none => ({ success := false, message := "Invalid or expired OTP session" }, sessions)
  | some session =>
    if session.expiresAt < now then
      ({ success := false, message := "OTP has expired" }, deleteA sessions sessionId)
    else if session.verified then
      ({ success := false, message := "OTP already used" }, sessions)
    else if maxOtpAttempts ≤ session.attempts then
      ({ success := false, message := "Too many failed attempts" }, deleteA sessions sessionId)
    else if session.code ≠ code then
      ({ success := false, message := "Invalid OTP code" },
        setA sessions sessionId { session with attempts := session.attempts + 1 })
    else
      ({ success := true, message := "OTP verified successfully",
         email := session.email, phone := session.phone },
        setA sessions sessionId
          { session with attempts := session.attempts + 1, verified := true })

/-- `AuthService.sendEmailOTP(email)`: the fresh sessionId and code delivered
by the caller's RNG are explicit inputs; stores a fresh unverified session
expiring `otpExpiry` from now and returns `{sessionId, expiresAt}`. -/
def sendEmailOTP (sessions : OTPStore) (email sessionId code : String) (now : Nat) :
    (String × Nat) × OTPStore :=
  ((sessionId, now + otpExpiryMs),
    (sessionId,
      { email := some email, code := code, attempts := 0,
        createdAt := now, expiresAt := now + otpExpiryMs, verified := false }) :: sessions)

/-! ## Auth orchestrator (`authService.ts` login / reset operations) -/

/-- Result shape of the login operations. -/
structure LoginResult where
  success : Bool
  message : String
  user : Option User := none
  accessToken : Option SignedToken := none
  refreshToken : Option SignedToken := none
deriving Repr, DecidableEq

/-- `AuthService.loginWithPassword(email, password)`: looks the user up with
`storage.getUserByEmail` on the raw identifier; the bcrypt comparison is the
explicit `compare` argument. Branch order follows the source: no user, no
passwordHash, inactive, hash mismatch, success. -/
def loginWithPassword (cfg : EnvConfig) (db : UserStore)
    (compare : String → String → Bool) (email password : String) (now : Nat) : LoginResult :=
  match getUserByEmail db email with
  | none => { success := false, message := "Invalid email or password" }
  | some u =>
    match u.passwordHash with
    | none => { success := false, message := "Please use OTP login for this account" }
    | some h =>
      if ¬ u.isActive then
        { success := false, message := "Account is deactivated" }
      else if ¬ compare password h then
        { success := false, message := "Invalid email or password" }
      else
        { success := true, message := "Login successful", user := some u,
          accessToken := some (generateAccessToken cfg u now),
          refreshToken := some (generateRefreshToken cfg u now) }

/-- `AuthService.loginWithOTP(sessionId)`: requires a verified session, resolves
`session.email || session.phone` through `getUserByEmailOrPhone`, and deletes
(consumes) the session on success. -/
def loginWithOTP (cfg : EnvConfig) (sessions : OTPStore) (db : UserStore)
    (sessionId : String) (now : Nat) : LoginResult × OTPStore :=
  match lookupA sessions sessionId with
  | none => ({ success := false, message := "Invalid or unverified session" }, sessions)
  | some session =>
    if ¬ session.verified then
      ({ success := false, message := "Invalid or unverified session" }, sessions)
    else
      match session.email.orElse (fun _ => session.phone) with
      | none => ({ success := false, message := "Invalid session data" }, sessions)
      | some identifier =>
        match getUserByEmailOrPhone db identifier with
        | none => ({ success := false, message := "User not found" }, sessions)
        | some u =>
          if ¬ u.isActive then
            ({ success := false, message := "Account is deactivated" }, sessions)
          else
            ({ success := true, message := "Login successful", user := some u,
               accessToken := some (generateAccessToken cfg u now),
               refreshToken := some (generateRefreshToken cfg u now) },
              deleteA sessions sessionId)

/-- Result shape of `AuthService.sendPasswordResetOTP` (mirrored into the JSON
envelope by the `/password/reset/request` route, which copies `success`,
`message` and `sessionId`). -/
structure ResetRequestResult where
  success : Bool
  message : String
  sessionId : Option String := none
deriving Repr, DecidableEq

/-- `AuthService.sendPasswordResetOTP(email)`: when no user matches, answers
success with a hedged message and NO sessionId; when a user exists, issues an
OTP session and answers success with a different message and the sessionId. -/
def sendPasswordResetOTP (db : UserStore) (sessions : OTPStore)
    (email freshSessionId freshCode : String) (now : Nat) :
    ResetRequestResult × OTPStore :=
  match getUserByEmail db email with
  | none =>
    ({ success := true, message := "If the email exists, you will receive a reset code" },
      sessions)
  | some _ =>
    let r := sendEmailOTP sessions email freshSessionId freshCode now
    ({ success := true, message := "Password reset code sent to your email",
       sessionId := some r.1.1 }, r.2)

/-! ## Rate limiter (`middleware/auth.ts` failedAttempts) -/

/-- A `failedAttempts` record: `{count, lastAttempt}`. -/
structure AttemptRecord where
  count : Nat
  lastAttempt : Nat
deriving Repr, DecidableEq

/-- The per-client `failedAttempts` map. -/
abbrev FailStore := List (String × AttemptRecord)

/-- `RATE_LIMIT_WINDOW = 15 * 60 * 1000`. -/
def RATE_LIMIT_WINDOW : Nat := 15 * 60 * 1000

/-- `MAX_FAILED_ATTEMPTS = 5`. -/
def MAX_FAILED_ATTEMPTS : Nat := 5

/-- Outcome of the `authRateLimit` middleware. -/
inductive RateOutcome
  | blocked
  | proceed
deriving Repr, DecidableEq

/-- The `authRateLimit` middleware: no record → proceed; record older than the
window → delete it and proceed; record at or above the cap → 429; else proceed. -/
def authRateLimit (m : FailStore) (clientId : String) (now : Nat) :
    RateOutcome × FailStore :=
  match lookupA m clientId with
  | none => (.proceed, m)
  | some attempts =>
    if RATE_LIMIT_WINDOW < now - attempts.lastAttempt then
      (.proceed, deleteA m clientId)
    else if MAX_FAILED_ATTEMPTS ≤ attempts.count then
      (.blocked, m)
    else
      (.proceed, m)

/-- `trackAuthFailure`: increments the existing record (stamping `lastAttempt`)
or creates one with count 1. -/
def trackAuthFailure (m : FailStore) (clientId : String) (now : Nat) : FailStore :=
  match lookupA m clientId with
  | some attempts => setA m clientId { count := attempts.count + 1, lastAttempt := now }
  | none => (clientId, { count := 1, lastAttempt := now }) :: m

/-! ## Theorems -/

/-- Claim C2: for every authenticated caller with one of the four known roles
and every non-empty required-role list drawn from those four, `authorize`
grants access iff the caller's level is at least the minimum level among the
required roles; in particular a `pharmacy_owner` caller passes a
`pharmacy_seller` check and a `client` caller fails a `pharmacy_owner` check. -/
theorem C2_authorize_hierarchical_minimum :
    (∀ (callerRole : String) (requiredRoles : List String),
        callerRole ∈ knownRoles →
        requiredRoles ≠ [] →
        (∀ r ∈ requiredRoles, r ∈ knownRoles) →
        (authorize (some callerRole) requiredRoles = .granted ↔
          specMinRequiredLevel requiredRoles ≤ roleLevel callerRole)) ∧
      authorize (some "pharmacy_owner") ["pharmacy_seller"] = .granted ∧
      authorize (some "client") ["pharmacy_owner"] = .insufficient := by
  refine ⟨?_, by decide, by decide⟩
  intro caller reqs _ hne _
  rw [show authorize (some caller) reqs =
      (if (reqs.any fun r => decide (roleLevel r ≤ roleLevel caller)) = true then
        AuthzOutcome.granted else AuthzOutcome.insufficient) from rfl]
  constructor
  · intro h
    by_cases hany : (reqs.any fun r => decide (roleLevel r ≤ roleLevel caller)) = true
    · exact (any_level_iff_min_le _ _ hne).mp hany
    · rw [if_neg hany] at h
      cases h
  · intro h
    rw [if_pos ((any_level_iff_min_le _ _ hne).mpr h)]

/-- Witness for C2 at a concrete caller and required-role list. -/
theorem C2_authorize_hierarchical_minimum_witness :
    ("pharmacy_owner" : String) ∈ knownRoles ∧
    (["pharmacy_seller", "super_admin"] : List String) ≠ [] ∧
    (authorize (some "pharmacy_owner") ["pharmacy_seller", "super_admin"] = .granted ↔
      specMinRequiredLevel ["pharmacy_seller", "super_admin"] ≤ roleLevel "pharmacy_owner") :=
  ⟨by decide, by decide,
    C2_authorize_hierarchical_minimum.1 "pharmacy_owner" ["pharmacy_seller", "super_admin"]
      (by decide) (by decide) (by decide)⟩

/-- Claim C10: `authorize` maps an unrecognized role to level 0, and if the
required-role list contains any unknown role string, every authenticated
caller is granted access regardless of their own role. -/
theorem C10_unknown_required_role_grants_all :
    (∀ role : String, role ∉ knownRoles → roleLevel role = 0) ∧
      ∀ (callerRole r : String) (requiredRoles : List String),
        r ∈ requiredRoles → r ∉ knownRoles →
        authorize (some callerRole) requiredRoles = .granted := by
  refine ⟨roleLevel_of_unknown, ?_⟩
  intro caller r reqs hmem hunk
  have hany : (reqs.any fun x => decide (roleLevel x ≤ roleLevel caller)) = true := by
    rw [List.any_eq_true]
    exact ⟨r, hmem, by simp [roleLevel_of_unknown r hunk]⟩
  rw [show authorize (some caller) reqs =
      (if (reqs.any fun x => decide (roleLevel x ≤ roleLevel caller)) = true then
        AuthzOutcome.granted else AuthzOutcome.insufficient) from rfl]
  rw [if_pos hany]

/-- Witness for C10: the unknown role string "moderator" in the required list
admits even a `client` caller. -/
theorem C10_unknown_required_role_grants_all_witness :
    ("moderator" : String) ∉ knownRoles ∧
    roleLevel "moderator" = 0 ∧
    authorize (some "client") ["moderator", "super_admin"] = .granted :=
  ⟨by decide,
    C10_unknown_required_role_grants_all.1 "moderator" (by decide),
    C10_unknown_required_role_grants_all.2 "client" "moderator" ["moderator", "super_admin"]
      (by decide) (by decide)⟩

/-- Claim C6: a token minted as a refresh token is rejected (null) by
access-token verification and a token minted as an access token is rejected
by refresh-token verification, for every configuration, blacklist, user and
pair of mint/verify times: when the per-type secrets differ the signature
check fails, and even when they coincide the explicit `type` claim check
fails. -/
theorem C6_wrong_token_type_rejected (cfg : EnvConfig) (bl : TokenSet) (u : User)
    (tMint tVerify : Nat) :
    verifyAccessToken cfg bl (generateRefreshToken cfg u tMint) tVerify = none ∧
    verifyRefreshToken cfg bl (generateAccessToken cfg u tMint) tVerify = none := by
  constructor
  · simp only [verifyAccessToken, generateRefreshToken, jwtVerify]
    split
    · rfl
    · split
      · rename_i p heq
        split at heq
        · cases heq
          simp
        · cases heq
      · rfl
  · simp only [verifyRefreshToken, generateAccessToken, jwtVerify]
    split
    · rfl
    · split
      · rename_i p heq
        split at heq
        · cases heq
          simp
        · cases heq
      · rfl

theorem lookupA_cons_self {α : Type} (m : List (String × α)) (k : String) (v : α) :
    lookupA ((k, v) :: m) k = some v := by
  simp [lookupA, List.find?]

/-- A `verifyOTP` call on a live, unverified, under-cap session with a
mismatching code fails with "Invalid OTP code" and stores the session with
`attempts` incremented. -/
theorem verifyOTP_mismatch (s : OTPStore) (sid code : String) (now : Nat) (sess : OTPSession)
    (hl : lookupA s sid = some sess) (hexp : ¬ sess.expiresAt < now)
    (hver : sess.verified = false) (hatt : sess.attempts < maxOtpAttempts)
    (hcode : sess.code ≠ code) :
    verifyOTP s sid code now =
      ({ success := false, message := "Invalid OTP code" },
        setA s sid { sess with attempts := sess.attempts + 1 }) := by
  simp [verifyOTP, hl, hexp, hver, hcode, Nat.not_le.mpr hatt]

/-- A `verifyOTP` call on a live, unverified session whose attempts counter
has reached the cap fails with "Too many failed attempts" and deletes the
session — regardless of the code supplied. -/
theorem verifyOTP_exceeded (s : OTPStore) (sid code : String) (now : Nat) (sess : OTPSession)
    (hl : lookupA s sid = some sess) (hexp : ¬ sess.expiresAt < now)
    (hver : sess.verified = false) (hatt : maxOtpAttempts ≤ sess.attempts) :
    verifyOTP s sid code now =
      ({ success := false, message := "Too many failed attempts" }, deleteA s sid) := by
  simp [verifyOTP, hl, hexp, hver, hatt]

/-- Claim C4: starting from any stored, unverified OTP session with attempts
0, three `verifyOTP` calls with mismatching codes (all before expiry) drive
`attempts` to 3, and a fourth call — even with the session's own correct
code — fails with "Too many failed attempts" and deletes the session. -/
theorem C4_fourth_attempt_rejected_even_if_correct :
    ∀ (s0 : OTPStore) (sid : String) (sess : OTPSession) (c1 c2 c3 : String)
      (t1 t2 t3 t4 : Nat),
      lookupA s0 sid = some sess →
      sess.attempts = 0 → sess.verified = false →
      c1 ≠ sess.code → c2 ≠ sess.code → c3 ≠ sess.code →
      ¬ sess.expiresAt < t1 → ¬ sess.expiresAt < t2 →
      ¬ sess.expiresAt < t3 → ¬ sess.expiresAt < t4 →
      (verifyOTP (verifyOTP (verifyOTP (verifyOTP s0 sid c1 t1).2
            sid c2 t2).2 sid c3 t3).2 sid sess.code t4).1 =
          { success := false, message := "Too many failed attempts" } ∧
        lookupA (verifyOTP (verifyOTP (verifyOTP (verifyOTP s0 sid c1 t1).2
            sid c2 t2).2 sid c3 t3).2 sid sess.code t4).2 sid = none := by
  intro s0 sid sess c1 c2 c3 t1 t2 t3 t4 hl ha0 hver hc1 hc2 hc3 he1 he2 he3 he4
  have m1 := verifyOTP_mismatch s0 sid c1 t1 sess hl he1 hver
    (by rw [ha0]; decide) (Ne.symm hc1)
  have hl1 : lookupA (setA s0 sid { sess with attempts := sess.attempts + 1 }) sid =
      some { sess with attempts := sess.attempts + 1 } := lookupA_set_self _ _ _ _ hl
  have m2 := verifyOTP_mismatch _ sid c2 t2 { sess with attempts := sess.attempts + 1 } hl1
    he2 hver (show sess.attempts + 1 < maxOtpAttempts by rw [ha0]; decide) (Ne.symm hc2)
  have hl2 : lookupA (setA _ sid { sess with attempts := sess.attempts + 1 + 1 }) sid =
      some { sess with attempts := sess.attempts + 1 + 1 } := lookupA_set_self _ _ _ _ hl1
  have m3 := verifyOTP_mismatch _ sid c3 t3 { sess with attempts := sess.attempts + 1 + 1 } hl2
    he3 hver (show sess.attempts + 1 + 1 < maxOtpAttempts by rw [ha0]; decide) (Ne.symm hc3)
  have hl3 : lookupA (setA _ sid { sess with attempts := sess.attempts + 1 + 1 + 1 }) sid =
      some { sess with attempts := sess.attempts + 1 + 1 + 1 } := lookupA_set_self _ _ _ _ hl2
  have m4 := verifyOTP_exceeded _ sid sess.code t4 { sess with attempts := sess.attempts + 1 + 1 + 1 }
    hl3 he4 hver (show maxOtpAttempts ≤ sess.attempts + 1 + 1 + 1 by rw [ha0]; decide)
  simp only [m1, m2, m3, m4]
  exact ⟨trivial, lookupA_delete_self _ _⟩

/-- Witness for C4 at a concrete session and three wrong codes. -/
theorem C4_fourth_attempt_rejected_even_if_correct_witness :
    (verifyOTP (verifyOTP (verifyOTP (verifyOTP
        [("S", { email := some "a@x.com", code := "111111", expiresAt := 10 })]
        "S" "000000" 1).2 "S" "000001" 2).2 "S" "000002" 3).2 "S" "111111" 4).1 =
      { success := false, message := "Too many failed attempts" } ∧
    lookupA (verifyOTP (verifyOTP (verifyOTP (verifyOTP
        [("S", { email := some "a@x.com", code := "111111", expiresAt := 10 })]
        "S" "000000" 1).2 "S" "000001" 2).2 "S" "000002" 3).2 "S" "111111" 4).2 "S" = none :=
  C4_fourth_attempt_rejected_even_if_correct
    [("S", { email := some "a@x.com", code := "111111", expiresAt := 10 })]
    "S" { email := some "a@x.com", code := "111111", expiresAt := 10 }
    "000000" "000001" "000002" 1 2 3 4
    (by decide) rfl rfl (by decide) (by decide) (by decide)
    (by decide) (by decide) (by decide) (by decide)

/-- A successful `verifyOTP` call stores the session back with
`verified := true` (and `attempts` incremented). -/
theorem verifyOTP_success_state (s : OTPStore) (sid code : String) (now : Nat)
    (h : (verifyOTP s sid code now).1.success = true) :
    ∃ sess, lookupA s sid = some sess ∧
      verifyOTP s sid code now =
        ({ success := true, message := "OTP verified successfully",
           email := sess.email, phone := sess.phone },
          setA s sid { sess with attempts := sess.attempts + 1, verified := true }) := by
  unfold verifyOTP at h
  split at h
  · simp at h
  · rename_i sess heq
    split at h
    · simp at h
    · split at h
      · simp at h
      · split at h
        · simp at h
        · split at h
          · simp at h
          · rename_i hexp hver hatt hcode
            refine ⟨sess, heq, ?_⟩
            simp [verifyOTP, heq, hexp, hver, hatt, hcode]

/-- A successful `loginWithOTP` call deletes (consumes) the session. -/
theorem loginWithOTP_success_state (cfg : EnvConfig) (s : OTPStore) (db : UserStore)
    (sid : String) (now : Nat)
    (h : (loginWithOTP cfg s db sid now).1.success = true) :
    (loginWithOTP cfg s db sid now).2 = deleteA s sid := by
  unfold loginWithOTP at h
  split at h
  · simp at h
  · rename_i sess heq
    split at h
    · simp at h
    · rename_i hver
      split at h
      · simp at h
      · rename_i ident hident
        split at h
        · simp at h
        · rename_i u hu
          split at h
          · simp at h
          · rename_i hact
            simp [loginWithOTP, heq, hver, hident, hu, hact]

/-- Claim C5: one OTP session never yields success twice. After a successful
`verifyOTP`, a second `verifyOTP` on the same sessionId fails (the stored
session is now verified, so the live path answers "OTP already used"); and
after the session has been consumed by a successful `loginWithOTP`, a further
`verifyOTP` fails with the session-not-found message. -/
theorem C5_no_double_success :
    (∀ (s : OTPStore) (sid code : String) (now : Nat) (code2 : String) (now2 : Nat),
      (verifyOTP s sid code now).1.success = true →
      (verifyOTP (verifyOTP s sid code now).2 sid code2 now2).1.success = false) ∧
    (∀ (cfg : EnvConfig) (s : OTPStore) (db : UserStore) (sid : String) (now : Nat)
        (code2 : String) (now2 : Nat),
      (loginWithOTP cfg s db sid now).1.success = true →
      (verifyOTP (loginWithOTP cfg s db sid now).2 sid code2 now2).1 =
        { success := false, message := "Invalid or expired OTP session" }) := by
  constructor
  · intro s sid code now code2 now2 h
    obtain ⟨sess, hl, heq⟩ := verifyOTP_success_state s sid code now h
    rw [heq]
    have hl2 :=
      lookupA_set_self s sid sess { sess with attempts := sess.attempts + 1, verified := true } hl
    by_cases hexp : sess.expiresAt < now2
    · simp [verifyOTP, hl2, hexp]
    · simp [verifyOTP, hl2, hexp]
  · intro cfg s db sid now code2 now2 h
    rw [loginWithOTP_success_state cfg s db sid now h]
    simp [verifyOTP, lookupA_delete_self]

/-- Witness for C5: a concrete session verified once then re-verified, and a
concrete verified session consumed by OTP login then re-verified. -/
theorem C5_no_double_success_witness :
    ((verifyOTP [("S", { email := some "a@x.com", code := "111111", expiresAt := 10 })]
        "S" "111111" 1).1.success = true ∧
      (verifyOTP (verifyOTP
          [("S", { email := some "a@x.com", code := "111111", expiresAt := 10 })]
          "S" "111111" 1).2 "S" "111111" 2).1.success = false) ∧
    ((loginWithOTP {}
        [("T", { email := some "a@x.com", code := "222222", expiresAt := 10, verified := true })]
        [{ id := "u1", email := some "a@x.com" }] "T" 1).1.success = true ∧
      (verifyOTP (loginWithOTP {}
        [("T", { email := some "a@x.com", code := "222222", expiresAt := 10, verified := true })]
        [{ id := "u1", email := some "a@x.com" }] "T" 1).2 "T" "222222" 2).1 =
        { success := false, message := "Invalid or expired OTP session" }) :=
  ⟨⟨by decide,
    C5_no_double_success.1
      [("S", { email := some "a@x.com", code := "111111", expiresAt := 10 })]
      "S" "111111" 1 "111111" 2 (by decide)⟩,
   ⟨by decide,
    C5_no_double_success.2 {}
      [("T", { email := some "a@x.com", code := "222222", expiresAt := 10, verified := true })]
      [{ id := "u1", email := some "a@x.com" }] "T" 1 "222222" 2 (by decide)⟩⟩

/-- Counterexample to C3 as stated: a user that exists but has no
passwordHash receives the distinct message "Please use OTP login for this
account", unlike the no-such-user case, so the three failure cases do NOT
share one message. -/
theorem C3_counterexample_passwordless_message_differs :
    (loginWithPassword {} [{ id := "u1", email := some "a@x.com" }]
        (fun _ _ => false) "a@x.com" "pw" 0).message
      = "Please use OTP login for this account" ∧
    (loginWithPassword {} [] (fun _ _ => false) "a@x.com" "pw" 0).message
      = "Invalid email or password" ∧
    ("Please use OTP login for this account" : String) ≠ "Invalid email or password" :=
  ⟨rfl, rfl, by decide⟩

/-- Claim C3 amended: the no-matching-user case and the failed-hash-comparison
case return the same "Invalid email or password" message, but a user without a
passwordHash gets the distinct message "Please use OTP login for this
account" (leaking that the account exists and is password-less). -/
theorem C3_amended_two_of_three_messages_equal :
    ∀ (cfg : EnvConfig) (db : UserStore) (compare : String → String → Bool)
      (email password : String) (now : Nat),
      (getUserByEmail db email = none →
        loginWithPassword cfg db compare email password now =
          { success := false, message := "Invalid email or password" }) ∧
      (∀ u, getUserByEmail db email = some u → u.passwordHash = none →
        loginWithPassword cfg db compare email password now =
          { success := false, message := "Please use OTP login for this account" }) ∧
      (∀ u h, getUserByEmail db email = some u → u.passwordHash = some h →
        u.isActive = true → compare password h = false →
        loginWithPassword cfg db compare email password now =
          { success := false, message := "Invalid email or password" }) := by
  intro cfg db cmp e p now
  refine ⟨?_, ?_, ?_⟩
  · intro h
    simp [loginWithPassword, h]
  · intro u hu hph
    simp [loginWithPassword, hu, hph]
  · intro u h hu hph hact hcmp
    simp [loginWithPassword, hu, hph, hact, hcmp]

/-- Witness for the amended C3 at three concrete stores. -/
theorem C3_amended_two_of_three_messages_equal_witness :
    loginWithPassword {} [] (fun _ _ => false) "b@x.com" "pw" 0 =
      { success := false, message := "Invalid email or password" } ∧
    loginWithPassword {} [{ id := "u1", email := some "a@x.com" }]
        (fun _ _ => false) "a@x.com" "pw" 0 =
      { success := false, message := "Please use OTP login for this account" } ∧
    loginWithPassword {} [{ id := "u2", email := some "c@x.com", passwordHash := some "H" }]
        (fun _ _ => false) "c@x.com" "pw" 0 =
      { success := false, message := "Invalid email or password" } :=
  ⟨(C3_amended_two_of_three_messages_equal {} [] (fun _ _ => false) "b@x.com" "pw" 0).1 rfl,
    (C3_amended_two_of_three_messages_equal {} [{ id := "u1", email := some "a@x.com" }]
      (fun _ _ => false) "a@x.com" "pw" 0).2.1 _ rfl rfl,
    (C3_amended_two_of_three_messages_equal {}
      [{ id := "u2", email := some "c@x.com", passwordHash := some "H" }]
      (fun _ _ => false) "c@x.com" "pw" 0).2.2 _ "H" rfl rfl rfl rfl⟩

/-- Counterexample to C9 as stated: a user identified only by phone, with a
correct password, cannot log in with `loginWithPassword` — the lookup is
`getUserByEmail` on the raw identifier, not the claimed `'@'` heuristic —
even though `getUserByEmailOrPhone` (which does implement the heuristic)
finds that user. -/
theorem C9_counterexample_phone_login_fails :
    (loginWithPassword {}
        [{ id := "u2", phone := some "+998901234567", passwordHash := some "pw" }]
        (fun p h => p == h) "+998901234567" "pw" 0).success = false ∧
    getUserByEmailOrPhone
        [{ id := "u2", phone := some "+998901234567", passwordHash := some "pw" }]
        "+998901234567" =
      some { id := "u2", phone := some "+998901234567", passwordHash := some "pw" } ∧
    ("pw" == "pw") = true :=
  ⟨rfl, by decide, rfl⟩

/-- Claim C9 amended: `loginWithPassword` looks the user up by email equality
on the raw identifier only (no `'@'` heuristic, no phone fallback — the
heuristic lives in `getUserByEmailOrPhone`, used by the OTP login path), so
whenever no stored user's email equals the identifier the login fails with
InvalidCredentials, even if a user has that phone number. -/
theorem C9_amended_lookup_is_email_only :
    ∀ (cfg : EnvConfig) (db : UserStore) (compare : String → String → Bool)
      (identifier password : String) (now : Nat),
      (∀ v ∈ db, v.email ≠ some identifier) →
      loginWithPassword cfg db compare identifier password now =
        { success := false, message := "Invalid email or password" } := by
  intro cfg db cmp ident pw now hno
  have h : getUserByEmail db ident = none := by
    rw [getUserByEmail, List.find?_eq_none]
    intro u hu
    simp [hno u hu]
  simp [loginWithPassword, h]

/-- Witness for the amended C9: the phone-identified user from the
counterexample input. -/
theorem C9_amended_lookup_is_email_only_witness :
    (∀ v : User,
      v ∈ ([{ id := "u2", phone := some "+998901234567", passwordHash := some "pw" }] : List User) →
      v.email ≠ some "+998901234567") ∧
    loginWithPassword {}
        [{ id := "u2", phone := some "+998901234567", passwordHash := some "pw" }]
        (fun p h => p == h) "+998901234567" "pw" 0 =
      { success := false, message := "Invalid email or password" } :=
  ⟨by decide,
    C9_amended_lookup_is_email_only {}
      [{ id := "u2", phone := some "+998901234567", passwordHash := some "pw" }]
      (fun p h => p == h) "+998901234567" "pw" 0 (by decide)⟩

/-- Claim C8 (code bug): the password-reset-request envelope is NOT uniform.
For a non-existent email the service answers success with message "If the
email exists, you will receive a reset code" and no sessionId, while for an
existing account it answers success with the different message "Password
reset code sent to your email" and a sessionId — a distinguishable
account-enumeration signal, contradicting the code's own "don't reveal if
email exists" comment. -/
theorem C8_reset_envelope_distinguishes_accounts :
    (sendPasswordResetOTP [] [] "a@x.com" "S1" "123456" 0).1 =
      { success := true, message := "If the email exists, you will receive a reset code",
        sessionId := none } ∧
    (sendPasswordResetOTP [{ id := "u1", email := some "a@x.com" }] []
        "a@x.com" "S1" "123456" 0).1 =
      { success := true, message := "Password reset code sent to your email",
        sessionId := some "S1" } ∧
    ("If the email exists, you will receive a reset code" : String) ≠
      "Password reset code sent to your email" :=
  ⟨rfl, rfl, by decide⟩

/-- Claim C1 (code bug): after `AuthService.logout` both tokens are in the
service's revocation set and both service verifiers reject them, BUT the
`authenticate` middleware consults only its own module-level blacklist, which
`logout` never updates — so in the secret configuration where
middleware-verified tokens and service-minted access tokens share a secret
(the only configuration in which `authenticate` can accept service tokens at
all), the revoked access token still passes request authentication. -/
theorem C1_logout_not_seen_by_authenticate :
    (generateAccessToken { jwtSecret := "access-secret-key" }
        { id := "u1", email := some "a@x.com" } 0) ∈
      (logout []
        (generateAccessToken { jwtSecret := "access-secret-key" }
          { id := "u1", email := some "a@x.com" } 0)
        (generateRefreshToken { jwtSecret := "access-secret-key" }
          { id := "u1", email := some "a@x.com" } 0)) ∧
    verifyAccessToken { jwtSecret := "access-secret-key" }
        (logout []
          (generateAccessToken { jwtSecret := "access-secret-key" }
            { id := "u1", email := some "a@x.com" } 0)
          (generateRefreshToken { jwtSecret := "access-secret-key" }
            { id := "u1", email := some "a@x.com" } 0))
        (generateAccessToken { jwtSecret := "access-secret-key" }
          { id := "u1", email := some "a@x.com" } 0) 1 = none ∧
    verifyRefreshToken { jwtSecret := "access-secret-key" }
        (logout []
          (generateAccessToken { jwtSecret := "access-secret-key" }
            { id := "u1", email := some "a@x.com" } 0)
          (generateRefreshToken { jwtSecret := "access-secret-key" }
            { id := "u1", email := some "a@x.com" } 0))
        (generateRefreshToken { jwtSecret := "access-secret-key" }
          { id := "u1", email := some "a@x.com" } 0) 1 = none ∧
    authenticate { jwtSecret := "access-secret-key" } []
        [{ id := "u1", email := some "a@x.com" }]
        (some (generateAccessToken { jwtSecret := "access-secret-key" }
          { id := "u1", email := some "a@x.com" } 0)) 1 =
      .ok { userId := "u1", email := "a@x.com", role := "client" } := by
  refine ⟨by decide, by decide, by decide, rfl⟩

/-- After `trackAuthFailure` the stored record has count one past the
previous (zero when absent) and `lastAttempt` stamped with the call time. -/
theorem lookupA_trackAuthFailure (m : FailStore) (k : String) (now : Nat) :
    lookupA (trackAuthFailure m k now) k =
      some { count := (match lookupA m k with | some r => r.count + 1 | none => 1),
             lastAttempt := now } := by
  unfold trackAuthFailure
  cases hl : lookupA m k with
  | none => exact lookupA_cons_self m k _
  | some r => exact lookupA_set_self m k r _ hl

/-- Claim C7: (1) starting from a clean client key, five `trackAuthFailure`
calls leave the counter at 5, and a sixth attempt evaluated within the
15-minute window of the fifth failure is rejected with 429 TooManyAttempts;
(2) whenever the window has strictly elapsed since the last recorded attempt,
`authRateLimit` deletes the record and proceeds, and the following attempt is
evaluated against a clean counter. -/
theorem C7_rate_limit_block_and_reset :
    (∀ (m0 : FailStore) (k : String) (t1 t2 t3 t4 t5 t6 : Nat),
      lookupA m0 k = none →
      t6 - t5 ≤ RATE_LIMIT_WINDOW →
      lookupA (trackAuthFailure (trackAuthFailure (trackAuthFailure (trackAuthFailure
          (trackAuthFailure m0 k t1) k t2) k t3) k t4) k t5) k =
        some { count := 5, lastAttempt := t5 } ∧
      (authRateLimit (trackAuthFailure (trackAuthFailure (trackAuthFailure (trackAuthFailure
          (trackAuthFailure m0 k t1) k t2) k t3) k t4) k t5) k t6).1 = .blocked) ∧
    (∀ (m : FailStore) (k : String) (rec : AttemptRecord) (now nextNow : Nat),
      lookupA m k = some rec →
      RATE_LIMIT_WINDOW < now - rec.lastAttempt →
      authRateLimit m k now = (.proceed, deleteA m k) ∧
      (authRateLimit (deleteA m k) k nextNow).1 = .proceed) := by
  constructor
  · intro m0 k t1 t2 t3 t4 t5 t6 h0 hwin
    have h1 : lookupA (trackAuthFailure m0 k t1) k =
        some { count := 1, lastAttempt := t1 } := by
      rw [lookupA_trackAuthFailure, h0]
    have h2 : lookupA (trackAuthFailure (trackAuthFailure m0 k t1) k t2) k =
        some { count := 2, lastAttempt := t2 } := by
      rw [lookupA_trackAuthFailure, h1]
    have h3 : lookupA (trackAuthFailure (trackAuthFailure (trackAuthFailure m0 k t1) k t2)
        k t3) k = some { count := 3, lastAttempt := t3 } := by
      rw [lookupA_trackAuthFailure, h2]
    have h4 : lookupA (trackAuthFailure (trackAuthFailure (trackAuthFailure
        (trackAuthFailure m0 k t1) k t2) k t3) k t4) k =
        some { count := 4, lastAttempt := t4 } := by
      rw [lookupA_trackAuthFailure, h3]
    have h5 : lookupA (trackAuthFailure (trackAuthFailure (trackAuthFailure (trackAuthFailure
        (trackAuthFailure m0 k t1) k t2) k t3) k t4) k t5) k =
        some { count := 5, lastAttempt := t5 } := by
      rw [lookupA_trackAuthFailure, h4]
    refine ⟨h5, ?_⟩
    simp only [authRateLimit, h5]
    rw [if_neg (not_lt.mpr hwin), if_pos (by decide)]
  · intro m k rec now nextNow hl hwin
    constructor
    · simp only [authRateLimit, hl]
      rw [if_pos hwin]
    · simp [authRateLimit, lookupA_delete_self]

/-- Witness for C7 at concrete times and a concrete store. -/
theorem C7_rate_limit_block_and_reset_witness :
    (lookupA ([] : FailStore) "1.2.3.4" = none ∧ (5 : Nat) - 4 ≤ RATE_LIMIT_WINDOW ∧
      lookupA (trackAuthFailure (trackAuthFailure (trackAuthFailure (trackAuthFailure
          (trackAuthFailure [] "1.2.3.4" 0) "1.2.3.4" 1) "1.2.3.4" 2) "1.2.3.4" 3)
          "1.2.3.4" 4) "1.2.3.4" = some { count := 5, lastAttempt := 4 } ∧
      (authRateLimit (trackAuthFailure (trackAuthFailure (trackAuthFailure (trackAuthFailure
          (trackAuthFailure [] "1.2.3.4" 0) "1.2.3.4" 1) "1.2.3.4" 2) "1.2.3.4" 3)
          "1.2.3.4" 4) "1.2.3.4" 5).1 = .blocked) ∧
    (authRateLimit [("1.2.3.4", { count := 2, lastAttempt := 0 })] "1.2.3.4" 900001 =
        (.proceed, deleteA [("1.2.3.4", { count := 2, lastAttempt := 0 })] "1.2.3.4") ∧
      (authRateLimit (deleteA [("1.2.3.4", { count := 2, lastAttempt := 0 })] "1.2.3.4")
          "1.2.3.4" 900002).1 = .proceed) :=
  ⟨⟨rfl, by decide,
    (C7_rate_limit_block_and_reset.1 [] "1.2.3.4" 0 1 2 3 4 5 rfl (by decide)).1,
    (C7_rate_limit_block_and_reset.1 [] "1.2.3.4" 0 1 2 3 4 5 rfl (by decide)).2⟩,
   C7_rate_limit_block_and_reset.2 [("1.2.3.4", { count := 2, lastAttempt := 0 })]
     "1.2.3.4" { count := 2, lastAttempt := 0 } 900001 900002 rfl (by decide)⟩

end MedicareHub
